import Mathlib

/-
Verification of the property-search request-builder / response-formatter.

The repository has three near-duplicate variants of the same logic:
  * `main.py`                    — FastAPI endpoint (`get_properties`, `fetch_properties`)
  * `property-search-mcp.py`     — FastMCP tool (`search_properties`, `fetch_properties_from_api`)
  * `property_search_lambda.py`  — AWS Lambda handler (`lambda_handler`)

This file shallowly embeds the request-normalisation, upstream-call and
response-formatting logic of all three variants.  JSON values are modelled by
`JVal`; Python dicts by association lists (`Dict`) with first-match lookup,
in-place overwrite and insertion-order append, matching CPython dict
semantics.  The external pieces (the HTTP client, `json.loads` of the incoming
request body) are modelled as oracle inputs: the parsed outcome of the
external call is passed in as a value of `Upstream` (resp. `BodyParse`), and
every outgoing POST payload is recorded in a returned trace list so that
"no network call is attempted" is expressible as an empty trace.
-/

namespace PropertySearch

/-- A JSON value as manipulated by the Python sources.  Floats do not occur in
any of the embedded code paths and are omitted. -/
inductive JVal where
  | null
  | bool (b : Bool)
  | int (n : Int)
  | str (s : String)
  | arr (xs : List JVal)
  | obj (kvs : List (String × JVal))

/-- A Python dict with string keys, as an insertion-ordered association list. -/
abbrev Dict := List (String × JVal)

/-- Python dict lookup (`d.get(k)` / `d[k]`): first matching key. -/
def dget : Dict → String → Option JVal
  | [], _ => none
  | (k, v) :: rest, key => if k = key then some v else dget rest key

/-- Python dict item assignment `d[k] = v`: overwrite in place if the key
exists, else append (CPython preserves insertion order). -/
def dset : Dict → String → JVal → Dict
  | [], k, v => [(k, v)]
  | (k', v') :: rest, k, v =>
      if k' = k then (k, v) :: rest else (k', v') :: dset rest k v

/-- Python `d.update(e)`: assign every item of `e` into `d`, in order. -/
def dupdate (d e : Dict) : Dict :=
  e.foldl (fun acc kv => dset acc kv.1 kv.2) d

/-- The keys of a dict are pairwise distinct.  This is an invariant of every
real Python dict (duplicates cannot exist), made explicit because the
association-list representation does not enforce it. -/
def NodupKeys (d : Dict) : Prop := (d.map Prod.fst).Nodup

/-- Python truthiness (`bool(v)`) of a JSON value. -/
def JVal.truthy : JVal → Bool
  | .null => false
  | .bool b => b
  | .int n => n != 0
  | .str s => s != ""
  | .arr xs => !xs.isEmpty
  | .obj kvs => !kvs.isEmpty

/-- Truthiness of `d.get(k)`: a missing key yields `None`, which is falsy. -/
def optTruthy : Option JVal → Bool
  | none => false
  | some v => v.truthy

/-- Decimal digits of a natural number, most significant first. -/
def natStr (n : Nat) : String := String.mk (Nat.toDigits 10 n)

/-- Python `str()` of an int: decimal digits with a leading `-` when negative. -/
def pyIntStr : Int → String
  | .ofNat m => natStr m
  | .negSucc m => "-" ++ natStr (m + 1)

/-- Remove leading and trailing whitespace from a character list, as the
Python `int()` constructor does to its string argument. -/
def stripWs (cs : List Char) : List Char :=
  ((cs.dropWhile Char.isWhitespace).reverse.dropWhile Char.isWhitespace).reverse

/-- Parse a nonempty all-digit character list to its value. -/
def parseDigits (cs : List Char) : Option Nat :=
  if cs.isEmpty then none
  else if cs.all Char.isDigit then
    some (cs.foldl (fun a c => a * 10 + (c.toNat - 48)) 0)
  else none

/-- Python `int(s)` on a string: strip whitespace, optional sign, then a
nonempty run of decimal digits; anything else raises `ValueError` (`none`). -/
def parsePyIntStr (s : String) : Option Int :=
  match stripWs s.data with
  | [] => none
  | '-' :: rest => (parseDigits rest).map (fun n => -(n : Int))
  | '+' :: rest => (parseDigits rest).map (fun n => (n : Int))
  | cs => (parseDigits cs).map (fun n => (n : Int))

/-- Python `int(v)` on a JSON value: ints pass through, bools coerce, strings
are parsed, everything else raises (`.error` carries the exception text). -/
def pyInt : JVal → Except String Int
  | .int n => .ok n
  | .bool b => .ok (if b then 1 else 0)
  | .str s =>
      match parsePyIntStr s with
      | some n => .ok n
      | none => .error ("invalid literal for int() with base 10: \x27" ++ s ++ "\x27")
  | .null => .error "int() argument must be a string, a bytes-like object or a real number, not NoneType"
  | .arr _ => .error "int() argument must be a string, a bytes-like object or a real number, not list"
  | .obj _ => .error "int() argument must be a string, a bytes-like object or a real number, not dict"

/-- Python `len(v)`: defined for strings, lists and dicts; raises otherwise. -/
def pyLen : JVal → Except String Nat
  | .str s => .ok s.length
  | .arr xs => .ok xs.length
  | .obj kvs => .ok kvs.length
  | .null => .error "object of type NoneType has no len()"
  | .bool _ => .error "object of type bool has no len()"
  | .int _ => .error "object of type int has no len()"

/-- Python `str()` of a JSON value as interpolated into an f-string.  The
scalar cases are exact.  Containers render through Python repr of their
elements; no embedded code path interpolates a container, so their rendering
is abstracted to a fixed marker instead of reproducing the repr grammar. -/
def pyStr : JVal → String
  | .null => "None"
  | .bool b => if b then "True" else "False"
  | .int n => pyIntStr n
  | .str s => s
  | .arr _ => "<list>"
  | .obj _ => "<dict>"

/-- Outcome of the single upstream HTTP POST, as seen by the calling Python
code after the client library has classified it: `success` is a 2xx response
with a JSON-object body (already parsed), `httpError` is the
`HTTPStatusError` / `urllib.error.HTTPError` raised on a non-2xx status
(carrying that status code and the response body text), and
`transportError` is any other exception (timeout, connection failure,
malformed body), carrying its message. -/
inductive Upstream where
  | success (json : Dict)
  | httpError (code : Nat) (body : String)
  | transportError (msg : String)

/-- Truthiness of `os.getenv("API_KEY")` negated: `if not api_key:` fires when
the variable is unset (`none`) or set to the empty string. -/
def apiKeyMissing : Option String → Bool
  | none => true
  | some s => s = ""

/-! ## `property_search_lambda.py` — `lambda_handler` -/

/-- Result of `json.loads(event["body"])`: either a `JSONDecodeError`
(`malformed`, silently ignored by the handler) or a parsed JSON object. -/
inductive BodyParse where
  | malformed
  | parsed (d : Dict)

/-- The parts of the Lambda event that `lambda_handler` reads.
`queryStringParameters` is `none` when the field is absent or JSON null; a
`body` that is absent or the empty string (both falsy under
`if event.get("body"):`) is modelled as `none`, otherwise `body` carries the
outcome of `json.loads` on it. -/
structure LambdaEvent where
  queryStringParameters : Option Dict
  body : Option BodyParse

/-- Parameter extraction of `lambda_handler` (step 2 of the source): start
from `{}`, merge in the query-string parameters when truthy, then merge in
the JSON body when present and parseable, the body taking precedence. -/
def mergeParams (event : LambdaEvent) : Dict :=
  let p0 : Dict := []
  let p1 :=
    match event.queryStringParameters with
    | some q => if q.isEmpty then p0 else dupdate p0 q
    | none => p0
  match event.body with
  | some (.parsed b) => dupdate p1 b
  | some .malformed => p1
  | none => p1

/-- The always-present part of the Lambda upstream payload (source lines
77–106), parameterised by the interpolated city/state and the already
converted `size` value. -/
def lambdaBasePayload (city state : String) (sz : Int) : Dict :=
  [("sort_by", .str "last_updated_time"),
   ("order_by", .str "desc"),
   ("searched_address_formatted", .str (city ++ ", " ++ state ++ ", USA")),
   ("property_status", .str "SALE"),
   ("output", .arr [.str "area", .str "price", .str "bedroom", .str "bathroom",
      .str "property_descriptor", .str "location", .str "address",
      .str "image_urls", .str "last_updated_time"]),
   ("image_count", .int 10),
   ("size", .int sz),
   ("allowed_mls", .arr [.str "ARMLS", .str "ACTRISMLS", .str "BAREISMLS",
      .str "CRMLS", .str "CENTRALMLS", .str "MLSLISTINGS", .str "NWMLS",
      .str "NTREISMLS", .str "shopprop"])]

/-- One `if "<src>" in params: payload["<dst>"] = int(params["<src>"])` step
of the Lambda handler; an unparseable value propagates the `int()` exception. -/
def addIntFilter (params : Dict) (src dst : String) (payload : Dict) :
    Except String Dict :=
  match dget params src with
  | none => .ok payload
  | some v => (pyInt v).map (fun n => dset payload dst (.int n))

/-- Payload construction of `lambda_handler` (source lines 77–118): base
payload with `size = int(params.get("size", 10))`, then the four optional
integer filters, then the cursor copied verbatim when present.  An `int()`
failure is an exception caught by the handler's generic `except` clause. -/
def lambdaBuildPayload (city state : String) (params : Dict) :
    Except String Dict := do
  let sz ← pyInt ((dget params "size").getD (.int 10))
  let p1 ← addIntFilter params "min_price" "min_price" (lambdaBasePayload city state sz)
  let p2 ← addIntFilter params "max_price" "max_price" p1
  let p3 ← addIntFilter params "bedrooms" "bedroom" p2
  let p4 ← addIntFilter params "bathrooms" "bathroom" p3
  pure (match dget params "cursor" with
        | none => p4
        | some v => dset p4 "cursor" v)

/-- A Lambda proxy response: the status code and the object passed to
`json.dumps` for the body (serialisation itself is external and not
modelled). -/
structure LambdaResponse where
  statusCode : Nat
  body : Dict

/-- An error response `{"statusCode": code, "body": {"error": msg}}`. -/
def errResp (code : Nat) (msg : String) : LambdaResponse :=
  ⟨code, [("error", JVal.str msg)]⟩

/-- `lambda_handler` of `property_search_lambda.py`.  The second component of
the result records every payload POSTed upstream (empty when no network call
is attempted).  The outcome of the single `urllib.request.urlopen` call is
the `upstream` oracle argument. -/
def lambda_handler (apiKey : Option String) (event : LambdaEvent)
    (upstream : Upstream) : LambdaResponse × List Dict :=
  if apiKeyMissing apiKey then
    (errResp 500 "API_KEY environment variable not set on Lambda.", [])
  else
    let params := mergeParams event
    if !(optTruthy (dget params "city")) || !(optTruthy (dget params "state")) then
      (errResp 400 "Missing required parameters: \x27city\x27 and \x27state\x27 are required.", [])
    else
      match dget params "city", dget params "state" with
      | some (.str city), some (.str state) =>
        (match lambdaBuildPayload city state params with
         | .error msg => (errResp 500 ("Internal Server Error: " ++ msg), [])
         | .ok payload =>
           match upstream with
           | .success json =>
             let dataV := (dget json "data").getD (.arr [])
             (match pyLen dataV with
              | .error msg => (errResp 500 ("Internal Server Error: " ++ msg), [payload])
              | .ok n =>
                (⟨200, [("data", dataV),
                        ("cursor", (dget json "cursor").getD .null),
                        ("count", .int n),
                        ("status", .str "success")]⟩, [payload]))
           | .httpError code text =>
             (⟨code, [("error", .str ("Upstream API Error: " ++ text))]⟩, [payload])
           | .transportError msg =>
             (errResp 500 ("Internal Server Error: " ++ msg), [payload]))
      | _, _ =>
        -- A truthy non-string city/state makes `.lower()` raise
        -- `AttributeError`, caught by the generic `except` clause.
        (errResp 500 "Internal Server Error: city or state has no attribute lower", [])

/-! ## `main.py` — `get_properties` payload and `fetch_properties` -/

/-- The upstream payload built by `get_properties` in `main.py` (source lines
218–256): fixed constants (including `"cursor": None` and `"size": 100`),
plus `min_price`/`max_price` copied over only when not `None`. -/
def mainBuildPayload (city state country : String)
    (min_price max_price : Option Int) : Dict :=
  let payload : Dict :=
    [("sort_by", .str "last_updated_time"),
     ("order_by", .str "desc"),
     ("searched_address_formatted", .str (city ++ ", " ++ state ++ ", " ++ country)),
     ("property_status", .str "SALE"),
     ("output", .arr [.str "area", .str "price", .str "bedroom", .str "bathroom",
        .str "property_descriptor", .str "location", .str "has_open_house",
        .str "virtual_url", .str "address", .str "status",
        .str "openhouse_latest_value"]),
     ("image_count", .int 0),
     ("size", .int 100),
     ("allowed_mls", .arr [.str "ARMLS", .str "ACTRISMLS", .str "BAREISMLS",
        .str "CRMLS", .str "CENTRALMLS", .str "MLSLISTINGS", .str "NWMLS",
        .str "NTREISMLS", .str "shopprop"]),
     ("cursor", .null)]
  let p1 := match min_price with
            | none => payload
            | some n => dset payload "min_price" (.int n)
  match max_price with
  | none => p1
  | some n => dset p1 "max_price" (.int n)

/-- The FastAPI `HTTPException` raised by `fetch_properties` in `main.py`:
a status code and a detail message. -/
structure HTTPExc where
  code : Nat
  detail : String
deriving DecidableEq

/-- `fetch_properties` of `main.py`: missing API key is a 500 configuration
error before any call; a non-2xx upstream status re-raises with the upstream
status code and its body text embedded in the detail; any other exception
becomes a generic 500; a 2xx response returns its parsed JSON body. -/
def fetch_properties (apiKey : Option String) (upstream : Upstream) :
    Except HTTPExc Dict :=
  if apiKeyMissing apiKey then
    .error ⟨500, "API_KEY environment variable not set. Please check your .env file."⟩
  else
    match upstream with
    | .success json => .ok json
    | .httpError code text =>
        .error ⟨code, "Error fetching properties from external service: " ++ text⟩
    | .transportError msg =>
        .error ⟨500, "An unexpected error occurred during API call: " ++ msg⟩

/-! ## `property-search-mcp.py` — `fetch_properties_from_api` and
`search_properties` -/

/-- A tool argument that may arrive as a native int or as a string
(`Optional[Union[int, str]]`). -/
inductive IntOrStr where
  | int (n : Int)
  | str (s : String)

/-- The string-to-int conversion step of `search_properties` (source lines
161–171): a native int passes through, a string is converted with `int()`,
and a conversion failure is the caught `ValueError`. -/
def convArg : Option IntOrStr → Except Unit (Option Int)
  | none => .ok none
  | some (.int n) => .ok (some n)
  | some (.str s) =>
      match parsePyIntStr s with
      | some n => .ok (some n)
      | none => .error ()

/-- The payload keys excluded from the OpenAPI example payload by the dict
comprehension in `fetch_properties_from_api` (source lines 96–100). -/
def excludedFilterKeys : List String := ["min_price", "max_price", "bedroom", "bathroom"]

/-- Payload construction of `fetch_properties_from_api` (source lines
96–111).  `base` is the `{key: example}` mapping read from `openapi.json`
(the file is not part of the repository; its contents are irrelevant to the
claims and it is kept abstract): the comprehension drops the four filter
keys, then `searched_address_formatted` and the provided filters are
assigned. -/
def mcpBuildPayload (base : Dict) (city state : String)
    (minp maxp bed bath : Option Int) : Dict :=
  let p0 := base.filter (fun kv => !(excludedFilterKeys.contains kv.1))
  let p1 := dset p0 "searched_address_formatted" (.str (city ++ ", " ++ state ++ ", USA"))
  let p2 := match minp with | none => p1 | some n => dset p1 "min_price" (.int n)
  let p3 := match maxp with | none => p2 | some n => dset p2 "max_price" (.int n)
  let p4 := match bed with | none => p3 | some n => dset p3 "bedroom" (.int n)
  match bath with | none => p4 | some n => dset p4 "bathroom" (.int n)

/-- `fetch_properties_from_api` of `property-search-mcp.py`: a missing API
key returns an error dict with no call; otherwise exactly one POST is issued
(recorded in the trace) and the response is either the parsed JSON body, an
`"API Error: {code} - {text}"` dict for a raised `HTTPStatusError`, or a
generic error dict for any other exception. -/
def fetch_properties_from_api (base : Dict) (apiKey : Option String)
    (city state : String) (minp maxp bed bath : Option Int)
    (upstream : Upstream) : Dict × List Dict :=
  if apiKeyMissing apiKey then
    ([("error", .str "API_KEY environment variable not set on the server.")], [])
  else
    let payload := mcpBuildPayload base city state minp maxp bed bath
    match upstream with
    | .success json => (json, [payload])
    | .httpError code text =>
        ([("error", .str ("API Error: " ++ natStr code ++ " - " ++ text))], [payload])
    | .transportError msg =>
        ([("error", .str ("An unexpected error occurred: " ++ msg))], [payload])

/-- The displayed address of a record (source lines 185–189):
`prop.get("google_address") if prop.get("google_address") else
prop.get("address")`. -/
def addressOf (prop : Dict) : JVal :=
  if ((dget prop "google_address").getD .null).truthy then
    (dget prop "google_address").getD .null
  else
    (dget prop "address").getD .null

/-- The `- **{address}**` line of a record block. -/
def addrLine (prop : Dict) : String :=
  "- **" ++ pyStr (addressOf prop) ++ "**\n"

/-- The price line of a record block: `  - Price: {prop.get('price', 'N/A')}`. -/
def priceLine (prop : Dict) : String :=
  "  - Price: " ++ pyStr ((dget prop "price").getD (.str "N/A")) ++ "\n"

/-- The beds line of a record block. -/
def bedsLine (prop : Dict) : String :=
  "  - Beds: " ++ pyStr ((dget prop "bedroom").getD (.str "N/A")) ++ "\n"

/-- The baths line of a record block. -/
def bathsLine (prop : Dict) : String :=
  "  - Baths: " ++ pyStr ((dget prop "bathroom").getD (.str "N/A")) ++ "\n"

/-- The area line of a record block. -/
def areaLine (prop : Dict) : String :=
  "  - Area: " ++ pyStr ((dget prop "area").getD (.str "N/A")) ++ " sqft\n"

/-- The description line of a record block. -/
def descLine (prop : Dict) : String :=
  "  - Description: " ++ pyStr ((dget prop "property_descriptor").getD (.str "N/A")) ++ "\n\n"

/-- One record's block in the formatted output (source lines 190–197). -/
def recordBlock (prop : Dict) : String :=
  addrLine prop ++ priceLine prop ++ bedsLine prop ++ bathsLine prop ++
    areaLine prop ++ descLine prop

/-- Format the record blocks of the `data` array.  A non-dict element makes
`prop.get` raise an uncaught `AttributeError`; that exception escapes the
tool function and is modelled as `none`. -/
def formatRecords : List JVal → Option String
  | [] => some ""
  | .obj kvs :: rest => (formatRecords rest).map (fun s => recordBlock kvs ++ s)
  | _ :: _ => none

/-- `search_properties` of `property-search-mcp.py`.  The first component is
the returned string (`none` models an uncaught Python exception inside the
formatting loop); the second records every POST payload issued upstream. -/
def search_properties (base : Dict) (apiKey : Option String)
    (city state : String) (minp maxp bed bath : Option IntOrStr)
    (upstream : Upstream) : Option String × List Dict :=
  match convArg minp, convArg maxp, convArg bed, convArg bath with
  | .ok mp, .ok xp, .ok bd, .ok bt =>
    let r := fetch_properties_from_api base apiKey city state mp xp bd bt upstream
    let resp := r.1
    if (dget resp "error").isSome then
      (some ("Failed to fetch properties: " ++ pyStr ((dget resp "error").getD .null)), r.2)
    else
      let properties := (dget resp "data").getD (.arr [])
      if properties.truthy = false then
        (some ("No properties found in " ++ city ++ ", " ++ state ++
               " matching your criteria."), r.2)
      else
        match properties with
        | .arr xs =>
          ((formatRecords xs).map (fun s =>
            "Found " ++ natStr xs.length ++ " properties in " ++ city ++ ", " ++
              state ++ ":\n\n" ++ s), r.2)
        | _ =>
          -- A truthy non-list `data` value makes the `for` loop raise.
          (none, r.2)
  | _, _, _, _ => (some "Error: All numeric parameters must be valid numbers", [])

/-- Whether the string `pat` occurs contiguously inside `s`. -/
def strHas (s pat : String) : Bool := decide (pat.data <:+: s.data)

/-! ## Dictionary lemmas -/

theorem dget_dset_self (d : Dict) (k : String) (v : JVal) :
    dget (dset d k v) k = some v := by
  induction d with
  | nil => simp [dset, dget]
  | cons kv rest ih =>
      obtain ⟨k', v'⟩ := kv
      by_cases h : k' = k
      · simp [dset, dget, h]
      · simp [dset, dget, h, ih]

theorem dget_dset_ne (d : Dict) {k k' : String} (h : k' ≠ k) (v : JVal) :
    dget (dset d k v) k' = dget d k' := by
  induction d with
  | nil => simp [dset, dget, Ne.symm h]
  | cons kv rest ih =>
      obtain ⟨k₀, v₀⟩ := kv
      by_cases h₀ : k₀ = k
      · subst h₀
        simp [dset, dget, Ne.symm h]
      · by_cases h₁ : k₀ = k'
        · simp [dset, h₀, dget, h₁, h]
        · simp [dset, h₀, dget, h₁, ih]

theorem dget_eq_none_of_not_mem (d : Dict) (k : String)
    (h : k ∉ d.map Prod.fst) : dget d k = none := by
  induction d with
  | nil => rfl
  | cons kv rest ih =>
      obtain ⟨k₀, v₀⟩ := kv
      simp only [List.map_cons, List.mem_cons] at h
      push_neg at h
      simpa [dget, Ne.symm h.1] using ih h.2

theorem dget_dupdate (d e : Dict) (k : String) (he : NodupKeys e) :
    dget (dupdate d e) k =
      match dget e k with
      | some v => some v
      | none => dget d k := by
  induction e generalizing d with
  | nil => simp [dupdate, dget]
  | cons kv rest ih =>
      obtain ⟨ek, ev⟩ := kv
      have hnd : NodupKeys rest := by
        simpa [NodupKeys, List.nodup_cons] using he.of_cons
      have hmem : ek ∉ rest.map Prod.fst := by
        have := he
        simp only [NodupKeys, List.map_cons, List.nodup_cons] at this
        exact this.1
      show dget (dupdate (dset d ek ev) rest) k = _
      rw [ih (dset d ek ev) hnd]
      by_cases hk : ek = k
      · subst hk
        rw [dget_eq_none_of_not_mem rest ek hmem]
        simp [dget, dget_dset_self]
      · have : dget (dset d ek ev) k = dget d k := dget_dset_ne d (fun hh => hk hh.symm) ev
        simp [dget, hk, this]

theorem dget_dupdate_nil (q : Dict) (k : String) (hq : NodupKeys q) :
    dget (dupdate [] q) k = dget q k := by
  rw [dget_dupdate [] q k hq]
  cases h : dget q k <;> simp [dget]

/-! ## Except-chain inversion lemmas -/

theorem except_bind_ok {α β ε : Type} {x : Except ε α} {f : α → Except ε β} {b : β}
    (h : (x >>= f) = .ok b) : ∃ a, x = .ok a ∧ f a = .ok b := by
  cases x with
  | error e => simp [Bind.bind, Except.bind] at h
  | ok a => exact ⟨a, rfl, by simpa [Bind.bind, Except.bind] using h⟩

theorem except_map_ok {α β ε : Type} {x : Except ε α} {f : α → β} {b : β}
    (h : Except.map f x = .ok b) : ∃ a, x = .ok a ∧ f a = b := by
  cases x with
  | error e => simp [Except.map] at h
  | ok a => exact ⟨a, rfl, by simpa [Except.map] using h⟩

/-- Inversion of one optional-filter step of the Lambda payload builder. -/
theorem addIntFilter_ok {params : Dict} {pk dk : String} {d d' : Dict}
    (h : addIntFilter params pk dk d = .ok d') :
    (dget params pk = none ∧ d' = d) ∨
      (∃ v n, dget params pk = some v ∧ pyInt v = .ok n ∧ d' = dset d dk (.int n)) := by
  unfold addIntFilter at h
  cases hp : dget params pk with
  | none =>
      left
      rw [hp] at h
      injection h with h'
      exact ⟨rfl, h'.symm⟩
  | some v =>
      right
      rw [hp] at h
      obtain ⟨n, hn, hd⟩ := except_map_ok h
      exact ⟨v, n, rfl, hn, hd.symm⟩

/-- A filter step only ever writes its destination key. -/
theorem addIntFilter_dget_ne {params : Dict} {pk dk : String} {d d' : Dict}
    (h : addIntFilter params pk dk d = .ok d') {k : String} (hk : k ≠ dk) :
    dget d' k = dget d k := by
  rcases addIntFilter_ok h with ⟨-, rfl⟩ | ⟨v, n, -, -, rfl⟩
  · rfl
  · exact dget_dset_ne d hk (.int n)

/-- Inversion of the Lambda payload builder's success into its five stages. -/
theorem lambdaBuildPayload_ok {city state : String} {params payload : Dict}
    (h : lambdaBuildPayload city state params = .ok payload) :
    ∃ sz p1 p2 p3 p4,
      pyInt ((dget params "size").getD (.int 10)) = .ok sz ∧
      addIntFilter params "min_price" "min_price" (lambdaBasePayload city state sz) = .ok p1 ∧
      addIntFilter params "max_price" "max_price" p1 = .ok p2 ∧
      addIntFilter params "bedrooms" "bedroom" p2 = .ok p3 ∧
      addIntFilter params "bathrooms" "bathroom" p3 = .ok p4 ∧
      payload = (match dget params "cursor" with
                 | none => p4
                 | some v => dset p4 "cursor" v) := by
  unfold lambdaBuildPayload at h
  obtain ⟨sz, hsz, h⟩ := except_bind_ok h
  obtain ⟨p1, h1, h⟩ := except_bind_ok h
  obtain ⟨p2, h2, h⟩ := except_bind_ok h
  obtain ⟨p3, h3, h⟩ := except_bind_ok h
  obtain ⟨p4, h4, h⟩ := except_bind_ok h
  refine ⟨sz, p1, p2, p3, p4, hsz, h1, h2, h3, h4, ?_⟩
  simp only [pure, Except.pure, Except.ok.injEq] at h
  exact h.symm

/-- Keys other than the five optional ones pass unchanged from the base
payload to the finished Lambda payload. -/
theorem lambdaBuildPayload_dget_other {city state : String}
    {params payload : Dict} (h : lambdaBuildPayload city state params = .ok payload)
    {k : String} (hmin : k ≠ "min_price") (hmax : k ≠ "max_price")
    (hbed : k ≠ "bedroom") (hbath : k ≠ "bathroom") (hcur : k ≠ "cursor") :
    ∃ sz, pyInt ((dget params "size").getD (.int 10)) = .ok sz ∧
      dget payload k = dget (lambdaBasePayload city state sz) k := by
  obtain ⟨sz, p1, p2, p3, p4, hsz, h1, h2, h3, h4, hp⟩ := lambdaBuildPayload_ok h
  refine ⟨sz, hsz, ?_⟩
  have e4 : dget payload k = dget p4 k := by
    rw [hp]
    cases hc : dget params "cursor" with
    | none => rfl
    | some v => exact dget_dset_ne p4 hcur v
  rw [e4, addIntFilter_dget_ne h4 hbath, addIntFilter_dget_ne h3 hbed,
      addIntFilter_dget_ne h2 hmax, addIntFilter_dget_ne h1 hmin]

/-! ## Claim C1 -/

/-- C1 counterexample: the claim asserts that each optional key among
min_price, max_price, bedrooms, bathrooms, cursor and page size is present
in the normalized payload if and only if it was provided and non-null, and
is omitted (not null) when absent.  The `main.py` payload built with no
cursor input nevertheless contains `"cursor": None`, and the Lambda payload
built with no size input nevertheless contains `"size": 10`. -/
theorem c1_counterexample :
    dget (mainBuildPayload "Seattle" "WA" "USA" none none) "cursor" = some JVal.null ∧
    (lambdaBuildPayload "Seattle" "WA"
        [("city", JVal.str "Seattle"), ("state", JVal.str "WA")]).map
      (fun p => dget p "size") = .ok (some (JVal.int 10)) :=
  ⟨rfl, rfl⟩

/-- C1 (amended): in the Lambda normalization, each of the four optional
integer filters (min_price, max_price, bedrooms→bedroom, bathrooms→bathroom)
is present in the payload iff the corresponding key is present in the merged
params, and then carries its parsed integer value; the cursor key is present
iff provided and is copied verbatim (not parsed to an integer); and the size
key is always present (defaulting to 10), not only when provided.  (In the
HTTP variant the cursor key is always present, set to null.) -/
theorem c1_filters_present_iff_provided (city state : String)
    (params payload : Dict)
    (h : lambdaBuildPayload city state params = .ok payload) :
    ((dget params "min_price" = none → dget payload "min_price" = none) ∧
      ∀ v, dget params "min_price" = some v →
        ∃ n, pyInt v = .ok n ∧ dget payload "min_price" = some (.int n)) ∧
    ((dget params "max_price" = none → dget payload "max_price" = none) ∧
      ∀ v, dget params "max_price" = some v →
        ∃ n, pyInt v = .ok n ∧ dget payload "max_price" = some (.int n)) ∧
    ((dget params "bedrooms" = none → dget payload "bedroom" = none) ∧
      ∀ v, dget params "bedrooms" = some v →
        ∃ n, pyInt v = .ok n ∧ dget payload "bedroom" = some (.int n)) ∧
    ((dget params "bathrooms" = none → dget payload "bathroom" = none) ∧
      ∀ v, dget params "bathrooms" = some v →
        ∃ n, pyInt v = .ok n ∧ dget payload "bathroom" = some (.int n)) ∧
    dget payload "cursor" = dget params "cursor" ∧
    (dget payload "size").isSome = true := by
  obtain ⟨sz, p1, p2, p3, p4, hsz, h1, h2, h3, h4, hp⟩ := lambdaBuildPayload_ok h
  have hnocur : ∀ k : String, k ≠ "cursor" → dget payload k = dget p4 k := by
    intro k hk
    rw [hp]
    cases hc : dget params "cursor" with
    | none => rfl
    | some v => exact dget_dset_ne p4 hk v
  have emin : dget payload "min_price" = dget p1 "min_price" := by
    rw [hnocur _ (by decide), addIntFilter_dget_ne h4 (by decide),
        addIntFilter_dget_ne h3 (by decide), addIntFilter_dget_ne h2 (by decide)]
  have emax : dget payload "max_price" = dget p2 "max_price" := by
    rw [hnocur _ (by decide), addIntFilter_dget_ne h4 (by decide),
        addIntFilter_dget_ne h3 (by decide)]
  have ebed : dget payload "bedroom" = dget p3 "bedroom" := by
    rw [hnocur _ (by decide), addIntFilter_dget_ne h4 (by decide)]
  have ebath : dget payload "bathroom" = dget p4 "bathroom" :=
    hnocur _ (by decide)
  refine ⟨⟨?_, ?_⟩, ⟨?_, ?_⟩, ⟨?_, ?_⟩, ⟨?_, ?_⟩, ?_, ?_⟩
  · intro hnone
    rw [emin]
    rcases addIntFilter_ok h1 with ⟨-, rfl⟩ | ⟨v, n, hv, -, -⟩
    · rfl
    · rw [hnone] at hv; cases hv
  · intro v hv
    rcases addIntFilter_ok h1 with ⟨hnone, rfl⟩ | ⟨w, n, hw, hn, rfl⟩
    · rw [hv] at hnone; cases hnone
    · rw [hv] at hw
      injection hw with hw
      subst hw
      exact ⟨n, hn, by rw [emin]; exact dget_dset_self _ _ _⟩
  · intro hnone
    rw [emax]
    rcases addIntFilter_ok h2 with ⟨-, rfl⟩ | ⟨v, n, hv, -, -⟩
    · rw [addIntFilter_dget_ne h1 (by decide)]; rfl
    · rw [hnone] at hv; cases hv
  · intro v hv
    rcases addIntFilter_ok h2 with ⟨hnone, rfl⟩ | ⟨w, n, hw, hn, rfl⟩
    · rw [hv] at hnone; cases hnone
    · rw [hv] at hw
      injection hw with hw
      subst hw
      exact ⟨n, hn, by rw [emax]; exact dget_dset_self _ _ _⟩
  · intro hnone
    rw [ebed]
    rcases addIntFilter_ok h3 with ⟨-, rfl⟩ | ⟨v, n, hv, -, -⟩
    · rw [addIntFilter_dget_ne h2 (by decide), addIntFilter_dget_ne h1 (by decide)]
      rfl
    · rw [hnone] at hv; cases hv
  · intro v hv
    rcases addIntFilter_ok h3 with ⟨hnone, rfl⟩ | ⟨w, n, hw, hn, rfl⟩
    · rw [hv] at hnone; cases hnone
    · rw [hv] at hw
      injection hw with hw
      subst hw
      exact ⟨n, hn, by rw [ebed]; exact dget_dset_self _ _ _⟩
  · intro hnone
    rw [ebath]
    rcases addIntFilter_ok h4 with ⟨-, rfl⟩ | ⟨v, n, hv, -, -⟩
    · rw [addIntFilter_dget_ne h3 (by decide), addIntFilter_dget_ne h2 (by decide),
          addIntFilter_dget_ne h1 (by decide)]
      rfl
    · rw [hnone] at hv; cases hv
  · intro v hv
    rcases addIntFilter_ok h4 with ⟨hnone, rfl⟩ | ⟨w, n, hw, hn, rfl⟩
    · rw [hv] at hnone; cases hnone
    · rw [hv] at hw
      injection hw with hw
      subst hw
      exact ⟨n, hn, by rw [ebath]; exact dget_dset_self _ _ _⟩
  · rw [hp]
    cases hc : dget params "cursor" with
    | none =>
        show dget p4 "cursor" = none
        rw [addIntFilter_dget_ne h4 (by decide), addIntFilter_dget_ne h3 (by decide),
            addIntFilter_dget_ne h2 (by decide), addIntFilter_dget_ne h1 (by decide)]
        rfl
    | some v => exact dget_dset_self p4 "cursor" v
  · have e : dget payload "size" = dget (lambdaBasePayload city state sz) "size" := by
      rw [hnocur _ (by decide), addIntFilter_dget_ne h4 (by decide),
          addIntFilter_dget_ne h3 (by decide), addIntFilter_dget_ne h2 (by decide),
          addIntFilter_dget_ne h1 (by decide)]
    rw [e]
    rfl

/-- Witness for C1 (amended): evaluated at the concrete params
`{"min_price": "100"}`, with the payload the builder actually returns. -/
theorem c1_filters_present_iff_provided_witness :
    lambdaBuildPayload "Seattle" "WA" [("min_price", JVal.str "100")]
      = .ok (dset (lambdaBasePayload "Seattle" "WA" 10) "min_price" (JVal.int 100)) ∧
    dget (dset (lambdaBasePayload "Seattle" "WA" 10) "min_price" (JVal.int 100)) "cursor"
      = none ∧
    (dget (dset (lambdaBasePayload "Seattle" "WA" 10) "min_price" (JVal.int 100)) "size").isSome
      = true := by
  refine ⟨rfl, ?_, ?_⟩
  · exact (c1_filters_present_iff_provided "Seattle" "WA"
      [("min_price", JVal.str "100")] _ rfl).2.2.2.2.1.trans rfl
  · exact (c1_filters_present_iff_provided "Seattle" "WA"
      [("min_price", JVal.str "100")] _ rfl).2.2.2.2.2

/-! ## Claim C2 -/

/-- C2: in all three variants, the normalized payload's
`searched_address_formatted` field is exactly `"{city}, {state}, USA"`, with
the city and state in their original input casing (`main.py` takes the
country as a third parameter defaulting to `"USA"`). -/
theorem c2_searched_address_formatted (base : Dict) (city state : String)
    (minp maxp bed bath : Option Int) (params payload : Dict)
    (h : lambdaBuildPayload city state params = .ok payload) :
    dget (mcpBuildPayload base city state minp maxp bed bath)
        "searched_address_formatted"
      = some (.str (city ++ ", " ++ state ++ ", USA")) ∧
    dget payload "searched_address_formatted"
      = some (.str (city ++ ", " ++ state ++ ", USA")) ∧
    dget (mainBuildPayload city state "USA" minp maxp)
        "searched_address_formatted"
      = some (.str (city ++ ", " ++ state ++ ", USA")) := by
  refine ⟨?_, ?_, ?_⟩
  · unfold mcpBuildPayload
    cases minp <;> cases maxp <;> cases bed <;> cases bath <;>
      simp only [] <;>
      (try rw [dget_dset_ne _ (by decide : ("searched_address_formatted":String) ≠ "bathroom")]) <;>
      (try rw [dget_dset_ne _ (by decide : ("searched_address_formatted":String) ≠ "bedroom")]) <;>
      (try rw [dget_dset_ne _ (by decide : ("searched_address_formatted":String) ≠ "max_price")]) <;>
      (try rw [dget_dset_ne _ (by decide : ("searched_address_formatted":String) ≠ "min_price")]) <;>
      exact dget_dset_self _ _ _
  · obtain ⟨sz, -, e⟩ := @lambdaBuildPayload_dget_other city state params payload h
      "searched_address_formatted" (by decide) (by decide) (by decide) (by decide) (by decide)
    rw [e]
    rfl
  · have haddr : ((city ++ ", " ++ state ++ ", ") ++ "USA" : String)
        = city ++ ", " ++ state ++ ", USA" := by
      rw [String.append_assoc]
      rfl
    unfold mainBuildPayload
    cases minp <;> cases maxp <;>
      (try rw [dget_dset_ne _ (by decide : ("searched_address_formatted":String) ≠ "max_price")]) <;>
      (try rw [dget_dset_ne _ (by decide : ("searched_address_formatted":String) ≠ "min_price")]) <;>
      (show some (JVal.str ((city ++ ", " ++ state ++ ", ") ++ "USA")) = _) <;>
      rw [haddr]

/-- Witness for C2 at concrete inputs, preserving mixed casing. -/
theorem c2_searched_address_formatted_witness :
    dget (mcpBuildPayload [] "KiRkLand" "wA" (some 1) none none none)
        "searched_address_formatted"
      = some (.str "KiRkLand, wA, USA") ∧
    dget (lambdaBasePayload "KiRkLand" "wA" 10) "searched_address_formatted"
      = some (.str "KiRkLand, wA, USA") ∧
    dget (mainBuildPayload "KiRkLand" "wA" "USA" none none)
        "searched_address_formatted"
      = some (.str "KiRkLand, wA, USA") := by
  have h := c2_searched_address_formatted [] "KiRkLand" "wA" (some 1) none none none
    [("city", JVal.str "KiRkLand")] (lambdaBasePayload "KiRkLand" "wA" 10) rfl
  exact ⟨h.1, h.2.1, h.2.2⟩

/-! ## Claim C3 -/

/-- C3: a numeric filter provided as a string that does not parse to an
integer makes normalization fail with the invalid-argument error surfaced to
the caller, and no upstream POST is issued (the recorded call trace is empty
whatever the upstream oracle would have answered): the tool variant returns
its fixed invalid-numbers message, and the Lambda variant returns a 500
carrying the `int()` ValueError text. -/
theorem c3_unparseable_filter_no_call (s : String) (h : parsePyIntStr s = none)
    (base : Dict) (apiKey : Option String) (city state : String)
    (maxp bed bath : Option IntOrStr) (upstream : Upstream) :
    search_properties base apiKey city state (some (.str s)) maxp bed bath upstream
      = (some "Error: All numeric parameters must be valid numbers", []) ∧
    lambda_handler (some "key")
      ⟨some [("city", JVal.str "Seattle"), ("state", JVal.str "WA"),
             ("min_price", JVal.str s)], none⟩ upstream
      = (errResp 500 ("Internal Server Error: " ++
          ("invalid literal for int() with base 10: \x27" ++ s ++ "\x27")), []) := by
  constructor
  · have h1 : convArg (some (.str s)) = .error () := by
      simp only [convArg]
      rw [h]
    simp only [search_properties, h1]
  · have h1 : pyInt (JVal.str s)
        = Except.error ("invalid literal for int() with base 10: \x27" ++ s ++ "\x27") := by
      simp only [pyInt]
      rw [h]
    have h2 : lambdaBuildPayload "Seattle" "WA"
        [("city", JVal.str "Seattle"), ("state", JVal.str "WA"), ("min_price", JVal.str s)]
        = .error ("invalid literal for int() with base 10: \x27" ++ s ++ "\x27") := by
      show (pyInt (JVal.str s)).map _ >>= _ = _
      rw [h1]
      rfl
    show (match lambdaBuildPayload "Seattle" "WA"
        [("city", JVal.str "Seattle"), ("state", JVal.str "WA"), ("min_price", JVal.str s)] with
      | .error msg => (errResp 500 ("Internal Server Error: " ++ msg), ([] : List Dict))
      | .ok payload =>
        match upstream with
        | .success json =>
          let dataV := (dget json "data").getD (.arr [])
          (match pyLen dataV with
           | .error msg => (errResp 500 ("Internal Server Error: " ++ msg), [payload])
           | .ok n =>
             (⟨200, [("data", dataV),
                     ("cursor", (dget json "cursor").getD .null),
                     ("count", .int n),
                     ("status", .str "success")]⟩, [payload]))
        | .httpError code text =>
          (⟨code, [("error", .str ("Upstream API Error: " ++ text))]⟩, [payload])
        | .transportError msg =>
          (errResp 500 ("Internal Server Error: " ++ msg), [payload])) = _
    rw [h2]

/-- Witness for C3 at the unparseable filter string `"abc"`. -/
theorem c3_unparseable_filter_no_call_witness :
    search_properties [] (some "key") "Seattle" "WA" (some (.str "abc")) none none none
        (.success [])
      = (some "Error: All numeric parameters must be valid numbers", []) ∧
    (lambda_handler (some "key")
      ⟨some [("city", JVal.str "Seattle"), ("state", JVal.str "WA"),
             ("min_price", JVal.str "abc")], none⟩ (.success [])).2 = [] := by
  have h := c3_unparseable_filter_no_call "abc" (by decide) [] (some "key")
    "Seattle" "WA" none none none (.success [])
  exact ⟨h.1, by rw [h.2]⟩

/-! ## Claim C4 -/

/-- C4: a numeric filter given as a numeric string normalizes exactly as the
corresponding native integer: the tool variant produces identical results
(and identical upstream payload traces), and the Lambda payload builder
produces identical payloads. -/
theorem c4_numeric_string_equals_int (s : String) (n : Int)
    (h : parsePyIntStr s = some n) (base : Dict) (apiKey : Option String)
    (city state : String) (maxp bed bath : Option IntOrStr) (upstream : Upstream)
    (lcity lstate : String) (rest : Dict) :
    search_properties base apiKey city state (some (.str s)) maxp bed bath upstream
      = search_properties base apiKey city state (some (.int n)) maxp bed bath upstream ∧
    lambdaBuildPayload lcity lstate (("min_price", JVal.str s) :: rest)
      = lambdaBuildPayload lcity lstate (("min_price", JVal.int n) :: rest) := by
  constructor
  · have h1 : convArg (some (.str s)) = .ok (some n) := by
      simp only [convArg]
      rw [h]
    have h2 : convArg (some (.int n)) = .ok (some n) := rfl
    simp only [search_properties, h1, h2]
  · have h1 : pyInt (JVal.str s) = .ok n := by
      simp only [pyInt]
      rw [h]
    have h2 : pyInt (JVal.int n) = .ok n := rfl
    have es : ∀ v : JVal, dget (("min_price", v) :: rest) "size" = dget rest "size" :=
      fun v => rfl
    have emn : ∀ v : JVal, dget (("min_price", v) :: rest) "min_price" = some v :=
      fun v => rfl
    have emx : ∀ v : JVal, dget (("min_price", v) :: rest) "max_price" = dget rest "max_price" :=
      fun v => rfl
    have ebd : ∀ v : JVal, dget (("min_price", v) :: rest) "bedrooms" = dget rest "bedrooms" :=
      fun v => rfl
    have ebt : ∀ v : JVal, dget (("min_price", v) :: rest) "bathrooms" = dget rest "bathrooms" :=
      fun v => rfl
    have ecr : ∀ v : JVal, dget (("min_price", v) :: rest) "cursor" = dget rest "cursor" :=
      fun v => rfl
    simp only [lambdaBuildPayload, addIntFilter, es, emn, emx, ebd, ebt, ecr, h1, h2]

/-- Witness for C4 at the numeric string `"100000"`. -/
theorem c4_numeric_string_equals_int_witness :
    search_properties [] (some "key") "Kirkland" "WA" (some (.str "100000")) none none none
        (.success [])
      = search_properties [] (some "key") "Kirkland" "WA" (some (.int 100000)) none none none
        (.success []) ∧
    lambdaBuildPayload "Seattle" "WA" [("min_price", JVal.str "100000")]
      = lambdaBuildPayload "Seattle" "WA" [("min_price", JVal.int 100000)] :=
  c4_numeric_string_equals_int "100000" 100000 (by decide) [] (some "key")
    "Kirkland" "WA" none none none (.success []) "Seattle" "WA" []

/-! ## Claim C5 -/

/-- C5: a non-2xx upstream response surfaces as an upstream error carrying
the exact upstream status code, with the upstream response body text embedded
verbatim in the error message; exactly one POST was issued (no retry), and
the result is never turned into a success (no `status: success` field, and
in `main.py` the call raises instead of returning).  The `hcode` hypothesis
records the claim's non-2xx premise; the `httpError` constructor models the
status-error exception the HTTP client raises for exactly those responses. -/
theorem c5_upstream_error_passthrough (code : Nat) (btext : String)
    (hcode : ¬ (200 ≤ code ∧ code ≤ 299)) (k : String) (hk : k ≠ "") :
    ((lambda_handler (some "key")
        ⟨some [("city", JVal.str "Seattle"), ("state", JVal.str "WA")], none⟩
        (.httpError code btext)).1.statusCode = code ∧
     dget (lambda_handler (some "key")
        ⟨some [("city", JVal.str "Seattle"), ("state", JVal.str "WA")], none⟩
        (.httpError code btext)).1.body "error"
        = some (JVal.str ("Upstream API Error: " ++ btext)) ∧
     dget (lambda_handler (some "key")
        ⟨some [("city", JVal.str "Seattle"), ("state", JVal.str "WA")], none⟩
        (.httpError code btext)).1.body "status" = none ∧
     (lambda_handler (some "key")
        ⟨some [("city", JVal.str "Seattle"), ("state", JVal.str "WA")], none⟩
        (.httpError code btext)).2.length = 1) ∧
    fetch_properties (some k) (.httpError code btext)
      = .error ⟨code, "Error fetching properties from external service: " ++ btext⟩ := by
  refine ⟨⟨rfl, rfl, rfl, rfl⟩, ?_⟩
  simp [fetch_properties, apiKeyMissing, hk]

/-- Witness for C5 at a concrete upstream 404. -/
theorem c5_upstream_error_passthrough_witness :
    (lambda_handler (some "key")
        ⟨some [("city", JVal.str "Seattle"), ("state", JVal.str "WA")], none⟩
        (.httpError 404 "Not Found")).1.statusCode = 404 ∧
    fetch_properties (some "key") (.httpError 404 "Not Found")
      = .error ⟨404, "Error fetching properties from external service: Not Found"⟩ := by
  have h := c5_upstream_error_passthrough 404 "Not Found" (by decide) "key" (by decide)
  exact ⟨h.1.1, h.2⟩

/-! ## Claim C6 -/

/-- C6: a 2xx upstream response with a well-formed JSON body yields a 200
result whose `data` field is the response's `data` array (empty when the key
is absent), whose `cursor` is the response's cursor passed through unchanged
(null when absent), and whose `count` equals the length of the `data` array;
exactly one POST was issued, carrying the built payload. -/
theorem c6_success_passthrough (json : Dict) (xs : List JVal)
    (hdata : (dget json "data").getD (JVal.arr []) = JVal.arr xs) :
    lambda_handler (some "key")
        ⟨some [("city", JVal.str "Seattle"), ("state", JVal.str "WA")], none⟩
        (.success json)
      = (⟨200, [("data", JVal.arr xs),
                ("cursor", (dget json "cursor").getD JVal.null),
                ("count", JVal.int xs.length),
                ("status", JVal.str "success")]⟩,
         [lambdaBasePayload "Seattle" "WA" 10]) := by
  show (match pyLen ((dget json "data").getD (JVal.arr [])) with
        | .error msg => (errResp 500 ("Internal Server Error: " ++ msg),
            [lambdaBasePayload "Seattle" "WA" 10])
        | .ok n => (⟨200, [("data", (dget json "data").getD (JVal.arr [])),
                           ("cursor", (dget json "cursor").getD JVal.null),
                           ("count", JVal.int n),
                           ("status", JVal.str "success")]⟩,
            [lambdaBasePayload "Seattle" "WA" 10])) = _
  rw [hdata]
  rfl

/-- Witness for C6 at a concrete body with one record, a cursor token, and at
a body with the `data` key absent. -/
theorem c6_success_passthrough_witness :
    lambda_handler (some "key")
        ⟨some [("city", JVal.str "Seattle"), ("state", JVal.str "WA")], none⟩
        (.success [("data", JVal.arr [JVal.obj [("price", JVal.int 1)]]),
                   ("cursor", JVal.str "tok")])
      = (⟨200, [("data", JVal.arr [JVal.obj [("price", JVal.int 1)]]),
                ("cursor", JVal.str "tok"),
                ("count", JVal.int 1),
                ("status", JVal.str "success")]⟩,
         [lambdaBasePayload "Seattle" "WA" 10]) ∧
    lambda_handler (some "key")
        ⟨some [("city", JVal.str "Seattle"), ("state", JVal.str "WA")], none⟩
        (.success [])
      = (⟨200, [("data", JVal.arr []),
                ("cursor", JVal.null),
                ("count", JVal.int 0),
                ("status", JVal.str "success")]⟩,
         [lambdaBasePayload "Seattle" "WA" 10]) := by
  constructor
  · exact c6_success_passthrough
      [("data", JVal.arr [JVal.obj [("price", JVal.int 1)]]), ("cursor", JVal.str "tok")]
      [JVal.obj [("price", JVal.int 1)]] rfl
  · exact c6_success_passthrough [] [] rfl

/-! ## Claim C7 -/

/-- C7 counterexample: the claim asserts the empty-result message is exactly
`"no properties found in {city}, {state}"` and nothing else; the code
returns `"No properties found in {city}, {state} matching your criteria."`
(capitalised, with a trailing clause). -/
theorem c7_counterexample :
    (search_properties [] (some "key") "Seattle" "WA" none none none none
        (.success [("data", JVal.arr []), ("cursor", JVal.null)])).1
      = some "No properties found in Seattle, WA matching your criteria." ∧
    (search_properties [] (some "key") "Seattle" "WA" none none none none
        (.success [("data", JVal.arr []), ("cursor", JVal.null)])).1
      ≠ some "no properties found in Seattle, WA" :=
  ⟨rfl, by decide⟩

/-- C7 (amended): for every search result with an empty listing sequence the
tool returns exactly the fixed message
`"No properties found in {city}, {state} matching your criteria."` with the
searched city and state substituted in, and nothing else. -/
theorem c7_empty_result_message (base : Dict) (k : String) (hk : k ≠ "")
    (city state : String) (json : Dict)
    (herr : dget json "error" = none)
    (hdata : (dget json "data").getD (JVal.arr []) = JVal.arr []) :
    (search_properties base (some k) city state none none none none (.success json)).1
      = some ("No properties found in " ++ city ++ ", " ++ state ++
              " matching your criteria.") := by
  have hfetch : fetch_properties_from_api base (some k) city state none none none none
      (.success json) = (json, [mcpBuildPayload base city state none none none none]) := by
    simp [fetch_properties_from_api, apiKeyMissing, hk]
  simp only [search_properties, convArg]
  rw [hfetch]
  simp [herr, hdata, JVal.truthy]

/-- Witness for C7 (amended) at a concrete empty upstream result. -/
theorem c7_empty_result_message_witness :
    (search_properties [] (some "key") "Kirkland" "WA" none none none none
        (.success [("data", JVal.arr [])])).1
      = some ("No properties found in " ++ "Kirkland" ++ ", " ++ "WA" ++
              " matching your criteria.") :=
  c7_empty_result_message [] "key" (by decide) "Kirkland" "WA"
    [("data", JVal.arr [])] rfl rfl

/-! ## Claim C8 -/

set_option maxRecDepth 16384 in
/-- C8 counterexample: the claim asserts a record with numeric price 450000
renders a price line containing `"$450,000"`; the code interpolates the raw
value, producing `  - Price: 450000` with no dollar sign or comma grouping
anywhere in the output. -/
theorem c8_counterexample :
    (search_properties [] (some "key") "Seattle" "WA" none none none none
        (.success [("data", JVal.arr [JVal.obj [("price", JVal.int 450000)]])])).1
      = some ("Found 1 properties in Seattle, WA:\n\n- **None**\n" ++
          "  - Price: 450000\n  - Beds: N/A\n  - Baths: N/A\n" ++
          "  - Area: N/A sqft\n  - Description: N/A\n\n") ∧
    strHas ("Found 1 properties in Seattle, WA:\n\n- **None**\n" ++
        "  - Price: 450000\n  - Beds: N/A\n  - Baths: N/A\n" ++
        "  - Area: N/A sqft\n  - Description: N/A\n\n") "$450,000" = false :=
  ⟨rfl, by decide⟩

/-- C8 (amended): the formatter interpolates each record's price value
verbatim — an integer price renders as its plain decimal digits (no comma
grouping, no currency symbol) and a string price renders as that string —
while `"N/A"` is rendered exactly when the price key is missing; every other
missing field (bedroom, bathroom, area, descriptor) is likewise substituted
with `"N/A"`, and the price line appears inside each record's block. -/
theorem c8_price_rendered_verbatim (prop : Dict) (n : Int) (s : String) :
    (dget prop "price" = some (JVal.int n) →
      priceLine prop = "  - Price: " ++ pyIntStr n ++ "\n") ∧
    (dget prop "price" = some (JVal.str s) →
      priceLine prop = "  - Price: " ++ s ++ "\n") ∧
    (dget prop "price" = none → priceLine prop = "  - Price: N/A\n") ∧
    (dget prop "bedroom" = none → bedsLine prop = "  - Beds: N/A\n") ∧
    (dget prop "bathroom" = none → bathsLine prop = "  - Baths: N/A\n") ∧
    (dget prop "area" = none → areaLine prop = "  - Area: N/A sqft\n") ∧
    (dget prop "property_descriptor" = none →
      descLine prop = "  - Description: N/A\n\n") ∧
    (∃ a b, recordBlock prop = a ++ priceLine prop ++ b) := by
  refine ⟨?_, ?_, ?_, ?_, ?_, ?_, ?_, ?_⟩
  · intro h
    simp only [priceLine, h, Option.getD_some]
    rfl
  · intro h
    simp only [priceLine, h, Option.getD_some]
    rfl
  · intro h
    simp only [priceLine, h, Option.getD_none]
    rfl
  · intro h
    simp only [bedsLine, h, Option.getD_none]
    rfl
  · intro h
    simp only [bathsLine, h, Option.getD_none]
    rfl
  · intro h
    simp only [areaLine, h, Option.getD_none]
    rfl
  · intro h
    simp only [descLine, h, Option.getD_none]
    rfl
  · refine ⟨addrLine prop,
      bedsLine prop ++ bathsLine prop ++ areaLine prop ++ descLine prop, ?_⟩
    simp only [recordBlock, String.append_assoc]

/-- Witness for C8 (amended) at concrete records: integer price 450000,
string price, and missing price. -/
theorem c8_price_rendered_verbatim_witness :
    priceLine [("price", JVal.int 450000)] = "  - Price: 450000\n" ∧
    priceLine [("price", JVal.str "Contact agent")] = "  - Price: Contact agent\n" ∧
    priceLine [] = "  - Price: N/A\n" := by
  refine ⟨?_, ?_, ?_⟩
  · exact ((c8_price_rendered_verbatim [("price", JVal.int 450000)] 450000 "").1 rfl).trans
      (by decide)
  · exact ((c8_price_rendered_verbatim [("price", JVal.str "Contact agent")] 0
      "Contact agent").2.1 rfl).trans rfl
  · exact (c8_price_rendered_verbatim [] 0 "").2.2.1 rfl

/-! ## Claim C9 -/

/-- C9: in the Lambda variant, when an event carries both query-string
parameters and a JSON body, the merged params take each key from the body
whenever the body supplies it; the query-string value is used only for keys
the body does not supply; and an unparseable (or absent) JSON body leaves
the query-string parameters in effect. -/
theorem c9_body_overrides_query (q b : Dict) (k : String)
    (hq : NodupKeys q) (hb : NodupKeys b) :
    (∀ v, dget b k = some v →
      dget (mergeParams ⟨some q, some (.parsed b)⟩) k = some v) ∧
    (dget b k = none →
      dget (mergeParams ⟨some q, some (.parsed b)⟩) k = dget q k) ∧
    dget (mergeParams ⟨some q, some .malformed⟩) k = dget q k ∧
    dget (mergeParams ⟨some q, none⟩) k = dget q k := by
  have hq1 : dget (if q.isEmpty then ([] : Dict) else dupdate [] q) k = dget q k := by
    cases q with
    | nil => simp [dget]
    | cons hd tl =>
        simp only [List.isEmpty_cons, Bool.false_eq_true, if_false]
        exact dget_dupdate_nil _ k hq
  have hmp : mergeParams ⟨some q, some (.parsed b)⟩
      = dupdate (if q.isEmpty then ([] : Dict) else dupdate [] q) b := rfl
  refine ⟨?_, ?_, ?_, ?_⟩
  · intro v hv
    rw [hmp, dget_dupdate _ b k hb, hv]
  · intro h0
    rw [hmp, dget_dupdate _ b k hb, h0]
    exact hq1
  · exact hq1
  · exact hq1

/-- Witness for C9 at concrete query-string and body dicts sharing the
`city` key. -/
theorem c9_body_overrides_query_witness :
    dget (mergeParams ⟨some [("city", JVal.str "Qcity"), ("size", JVal.str "5")],
        some (.parsed [("city", JVal.str "Bcity")])⟩) "city"
      = some (JVal.str "Bcity") ∧
    dget (mergeParams ⟨some [("city", JVal.str "Qcity"), ("size", JVal.str "5")],
        some (.parsed [("city", JVal.str "Bcity")])⟩) "size"
      = some (JVal.str "5") ∧
    dget (mergeParams ⟨some [("city", JVal.str "Qcity"), ("size", JVal.str "5")],
        some .malformed⟩) "city"
      = some (JVal.str "Qcity") := by
  refine ⟨?_, ?_, ?_⟩
  · exact (c9_body_overrides_query
      [("city", JVal.str "Qcity"), ("size", JVal.str "5")]
      [("city", JVal.str "Bcity")] "city"
      (by unfold NodupKeys; decide) (by unfold NodupKeys; decide)).1
      (JVal.str "Bcity") rfl
  · exact ((c9_body_overrides_query
      [("city", JVal.str "Qcity"), ("size", JVal.str "5")]
      [("city", JVal.str "Bcity")] "size"
      (by unfold NodupKeys; decide) (by unfold NodupKeys; decide)).2.1 rfl).trans rfl
  · exact ((c9_body_overrides_query
      [("city", JVal.str "Qcity"), ("size", JVal.str "5")]
      [("city", JVal.str "Bcity")] "city"
      (by unfold NodupKeys; decide) (by unfold NodupKeys; decide)).2.2.1).trans rfl

/-! ## Claim C10 -/

/-- C10: in the tool variant's formatter, the displayed address is the
record's `google_address` value whenever that key is present and truthy,
otherwise the record's `address` value; when both keys are missing, the
address line renders the Python literal `None` (not `"N/A"`). -/
theorem c10_address_selection (prop : Dict) (g : JVal) :
    (dget prop "google_address" = some g → g.truthy = true →
      addressOf prop = g) ∧
    (dget prop "google_address" = some g → g.truthy = false →
      addressOf prop = (dget prop "address").getD JVal.null) ∧
    (dget prop "google_address" = none →
      addressOf prop = (dget prop "address").getD JVal.null) ∧
    (dget prop "google_address" = none → dget prop "address" = none →
      addrLine prop = "- **None**\n" ∧ pyStr (addressOf prop) = "None") := by
  refine ⟨?_, ?_, ?_, ?_⟩
  · intro h ht
    simp [addressOf, h, ht]
  · intro h ht
    simp [addressOf, h, ht]
  · intro h
    simp [addressOf, h, JVal.truthy]
  · intro h1 h2
    constructor
    · simp [addrLine, addressOf, h1, h2, JVal.truthy, pyStr]
    · simp [addressOf, h1, h2, JVal.truthy, pyStr]

/-- Witness for C10: a truthy google_address wins, a falsy (empty-string)
google_address falls back to address, and a record with neither renders
`None`. -/
theorem c10_address_selection_witness :
    addressOf [("google_address", JVal.str "1 G St"), ("address", JVal.str "2 A St")]
      = JVal.str "1 G St" ∧
    addressOf [("google_address", JVal.str ""), ("address", JVal.str "2 A St")]
      = JVal.str "2 A St" ∧
    addrLine [("price", JVal.int 1)] = "- **None**\n" := by
  refine ⟨?_, ?_, ?_⟩
  · exact (c10_address_selection
      [("google_address", JVal.str "1 G St"), ("address", JVal.str "2 A St")]
      (JVal.str "1 G St")).1 rfl rfl
  · exact ((c10_address_selection
      [("google_address", JVal.str ""), ("address", JVal.str "2 A St")]
      (JVal.str "")).2.1 rfl rfl).trans rfl
  · exact ((c10_address_selection [("price", JVal.int 1)] JVal.null).2.2.2 rfl rfl).1

end PropertySearch
